import Mathlib

/-
Verification development for the uboot_serial repository.

The repository drives an embedded device over a serial console.  The
shallow embedding below models the serial transport as a list of
"sessions": every read-with-timeout loop in the source clears the input
buffer and then consumes device output, so each such loop (and each bare
readline) consumes the next session of the device model.  A session is a
list of timed chunks; a chunk is one physical read result (one decoded
character for read_until, one decoded line for readline_until) together
with the abstract time the read consumed.  Writes are logged; close sets
a flag.  Python strings are modelled as lists of characters.
-/

abbrev Str := List Char

/-- One physical read served by the transport: `dt` time units consumed by
the read, `s` the decoded text it returned (possibly empty). -/
structure Chunk where
  dt : Nat
  s  : Str
deriving DecidableEq

/-- Python substring test `sub in text` on ordinary strings. -/
def pyInStr (sub text : Str) : Bool := decide (sub <:+: text)

/-- The while loop shared by read_until and readline_until
(uboot.py lines 25-32 and 49-56): before each read the elapsed time is
compared with the timeout; after each read the chunk is appended to the
accumulator and the substring test runs; a match returns the accumulator,
otherwise the loop ends with None once the budget is exhausted. -/
def readLoop (string : Str) (timeout : Nat) : List Chunk → Str → Nat → Option Str
  | [], _, _ => none
  | c :: rest, text, elapsed =>
    if elapsed < timeout then
      if pyInStr string (text ++ c.s) then some (text ++ c.s)
      else readLoop string timeout rest (text ++ c.s) (elapsed + c.dt)
    else none

/-- uboot.py read_until over the chunk stream served after the input
buffer was cleared.  The source reads one character per iteration; the
chunk list is the sequence of those character reads. -/
def read_until (chunks : List Chunk) (string : Str) (timeout : Nat) : Option Str :=
  readLoop string timeout chunks [] 0

/-- uboot.py readline_until: identical control flow to read_until, the
only difference in the source being that each iteration reads one line
instead of one character; the chunk list is the sequence of line reads. -/
def readline_until (chunks : List Chunk) (string : Str) (timeout : Nat) : Option Str :=
  readLoop string timeout chunks [] 0

/-- Concatenation of the text of a chunk list. -/
def accText (chunks : List Chunk) : Str := chunks.foldr (fun c r => c.s ++ r) []

/-- Total time consumed by a chunk list. -/
def durSum (chunks : List Chunk) : Nat := chunks.foldr (fun c r => c.dt + r) 0

/-- The chunks a read loop can actually consume within the budget: read
number k happens exactly when the durations of the earlier reads sum to
less than the timeout (the loop checks the clock before each read). -/
def budgetChunks (timeout : Nat) : Nat → List Chunk → List Chunk
  | _, [] => []
  | elapsed, c :: rest =>
    if elapsed < timeout then c :: budgetChunks timeout (elapsed + c.dt) rest else []

/-- The serial port model: the sessions the device will serve to the
successive read calls, the log of lines written so far, and whether the
port has been closed. -/
structure Com where
  sessions : List (List Chunk)
  writes   : List Str
  closed   : Bool
deriving DecidableEq

/-- Pop the next device session; an exhausted device serves silence. -/
def nextSession (com : Com) : List Chunk × Com :=
  match com.sessions with
  | [] => ([], com)
  | s :: rest => (s, ⟨rest, com.writes, com.closed⟩)

/-- Alias used to refer to the chunk-level read_until from inside the Com
namespace. -/
def readUntilPure : List Chunk → Str → Nat → Option Str := read_until

/-- Alias used to refer to the chunk-level readline_until from inside the
Com namespace. -/
def readlineUntilPure : List Chunk → Str → Nat → Option Str := readline_until

/-- read_until acting on the port: consumes the next session. -/
def Com.read_until (com : Com) (string : Str) (timeout : Nat) : Option Str × Com :=
  (readUntilPure (nextSession com).1 string timeout, (nextSession com).2)

/-- readline_until acting on the port: consumes the next session. -/
def Com.readline_until (com : Com) (string : Str) (timeout : Nat) : Option Str × Com :=
  (readlineUntilPure (nextSession com).1 string timeout, (nextSession com).2)

/-- A bare com.readline() call (update_application.py line 150): returns
the next device response as one line. -/
def Com.readline (com : Com) : Str × Com :=
  (accText (nextSession com).1, (nextSession com).2)

def crlf : Str := "\r\n".toList

/-- uboot.py send_cmd: appends the line terminator and writes the bytes. -/
def send_cmd (com : Com) (command : Str) : Com :=
  ⟨com.sessions, com.writes ++ [command ++ crlf], com.closed⟩

/-- Marking the port closed (com.close()). -/
def Com.close (com : Com) : Com := ⟨com.sessions, com.writes, true⟩

def uPrompt : Str := "=>".toList

def loginPromptStr : Str := "ccimx6sbc login:".toList

def rootPromptStr : Str := "root@ccimx6sbc:".toList

def ubootName : Str := "uboot".toList

def loginName : Str := "login".toList

def rootName : Str := "root".toList

def autobootBanner : Str := "Hit any key to stop autoboot: ".toList

def loginBanner : Str := "ccimx6sbc login: ".toList

def passwordPrompt : Str := "Password:".toList

def psswdDefault : Str := "Allergen_lock".toList

def resetCmd : Str := "reset".toList

def rebootCmd : Str := "reboot".toList

def exitCmd : Str := "exit".toList

/-- uboot.py check_prompt (lines 71-101): sends two empty lines and
probes for the u-boot prompt with a 1 second budget, then repeats for the
login prompt and the root prompt, stopping at the first match; the
returned prompt string stays empty when nothing matched. -/
def check_prompt (com : Com) : Str × Com :=
  let c1 := send_cmd (send_cmd com []) []
  match Com.readline_until c1 uPrompt 1 with
  | (some _, c) => (ubootName, c)
  | (none, c) =>
    let c2 := send_cmd (send_cmd c []) []
    match Com.readline_until c2 loginPromptStr 1 with
    | (some _, c) => (loginName, c)
    | (none, c) =>
      let c3 := send_cmd (send_cmd c []) []
      match Com.readline_until c3 rootPromptStr 1 with
      | (some _, c) => (rootName, c)
      | (none, c) => ([], c)

/-- uboot.py login (lines 137-152): sends the root user name, waits for
the password prompt (default 5 second budget), sends the password and
reports whether check_prompt now sees the root shell. -/
def login (com : Com) (root_psswd : Str) : Bool × Com :=
  let c1 := send_cmd com rootName
  let r := Com.read_until c1 passwordPrompt 5
  let c2 := send_cmd r.2 root_psswd
  let p := check_prompt c2
  (decide (p.1 = rootName), p.2)

/-- Shared suffix of boot_to_uboot (uboot.py lines 130-135): wait up to
20 seconds for the autoboot banner, send an empty line, re-probe. -/
def boot_to_uboot_tail (com : Com) : Bool × Com :=
  let r := Com.read_until com autobootBanner 20
  let c := send_cmd r.2 []
  let p := check_prompt c
  (decide (p.1 = ubootName), p.2)

/-- uboot.py boot_to_uboot (lines 103-135).  From the u-boot prompt with
reset set, issue reset; without reset return immediately.  From the login
prompt, log in and reboot on success (the wait still runs when the login
failed, exactly as in the source).  From the root shell, reboot.  With no
prompt, return False. -/
def boot_to_uboot (com : Com) (reset : Bool) : Bool × Com :=
  let p := check_prompt com
  if p.1 = ubootName then
    if reset then boot_to_uboot_tail (send_cmd p.2 resetCmd)
    else (true, p.2)
  else if p.1 = loginName then
    let l := login p.2 psswdDefault
    if l.1 then boot_to_uboot_tail (send_cmd l.2 rebootCmd)
    else boot_to_uboot_tail l.2
  else if p.1 = rootName then boot_to_uboot_tail (send_cmd p.2 rebootCmd)
  else (false, p.2)

/-- Shared suffix of boot_to_login (uboot.py lines 179-184). -/
def boot_to_login_tail (com : Com) : Bool × Com :=
  let r := Com.read_until com loginBanner 40
  let c := send_cmd r.2 []
  let p := check_prompt c
  (decide (p.1 = loginName), p.2)

/-- uboot.py boot_to_login (lines 154-184). -/
def boot_to_login (com : Com) (reboot : Bool) : Bool × Com :=
  let p := check_prompt com
  if p.1 = ubootName then boot_to_login_tail (send_cmd p.2 resetCmd)
  else if p.1 = loginName then (true, p.2)
  else if p.1 = rootName then
    if reboot then boot_to_login_tail (send_cmd p.2 rebootCmd)
    else boot_to_login_tail (send_cmd p.2 exitCmd)
  else (false, p.2)

/-- uboot.py boot_to_root (lines 186-221). -/
def boot_to_root (com : Com) (root_psswd : Str) (reboot : Bool) : Bool × Com :=
  let p := check_prompt com
  if p.1 = ubootName then
    let c := send_cmd p.2 resetCmd
    let r := Com.read_until c loginBanner 40
    login r.2 root_psswd
  else if p.1 = loginName then
    login p.2 root_psswd
  else if p.1 = rootName then
    if reboot then
      let c := send_cmd p.2 rebootCmd
      let r := Com.read_until c loginBanner 60
      login r.2 root_psswd
    else (true, p.2)
  else (false, p.2)

/-- Python exceptions the update procedures can surface.  typeError is
the uncaught crash produced when a None read result reaches a substring
test; the other two are raised explicitly by the scripts. -/
inductive PyError where
  | typeError
  | valueError (msg : Str)
  | runtimeError (msg : Str)
deriving DecidableEq

/-- Result of running one update procedure: either a normal return with a
value, or an escaping exception; both carry the final port state. -/
inductive PRes (α : Type) where
  | ok (val : α) (com : Com)
  | err (e : PyError) (com : Com)
deriving DecidableEq

/-- The explicit failure idiom of all three scripts: log, com.close(),
raise RuntimeError(msg). -/
def failRT {α : Type} (msg : Str) (com : Com) : PRes α :=
  .err (.runtimeError msg) (Com.close com)

/-- The exception carried by a result, when there is one. -/
def PRes.errOf {α : Type} : PRes α → Option PyError
  | .ok _ _ => none
  | .err e _ => some e

/-- The final port state of a result. -/
def PRes.comOf {α : Type} : PRes α → Com
  | .ok _ c => c
  | .err _ c => c

/-- Whether the procedure ended in an explicitly raised RuntimeError. -/
def PRes.isRuntimeErr {α : Type} : PRes α → Bool
  | .err (.runtimeError _) _ => true
  | _ => false

def lastN (n : Nat) (s : Str) : Str := s.drop (s.length - n)

/-- Python str.isdigit restricted to the ASCII console strings this
program handles: nonempty and all decimal digits. -/
def pyIsdigit (s : Str) : Bool := decide (s ≠ []) && s.all Char.isDigit

/-- Python str.isupper restricted to ASCII: at least one cased (that is,
alphabetic) character, and no cased character is lowercase. -/
def pyIsupper (s : Str) : Bool := s.any Char.isAlpha && s.all (fun c => !(Char.isLower c))

def imxSuffix : Str := ".imx".toList

def bootSuffix : Str := ".boot.vfat".toList

def rootfsSuffix : Str := ".rootfs.ext4".toList

def recoverySuffix : Str := ".recovery.vfat".toList

def msgImx : Str := "Image file extension must be *.imx".toList

def msgBootSuffix : Str := "BOOT image file extension must be *.boot.vfat".toList

def msgRootfsSuffix : Str := "ROOTFS image file extension must be *.rootfs.ext4".toList

def msgRecoverySuffix : Str := "RECOVERY image file extension must be *.recovery.vfat".toList

def msgTimedOut : Str := "Request timed out...".toList

def msgSerialLen : Str := "Serial Number must be 16 characters.".toList

def msgSerialDigits : Str := "Last 8 characters of Serial Number must be numeric.".toList

def msgSerialUpper : Str := "First 8 characters of Serial Number must be uppercase alpha-numeric.".toList

def updateUbootCmd : Str := "update uboot mmc 1 fat ".toList

def confirmPrompt : Str := "program the boot loader? <y/N>".toList

def yStr : Str := "y".toList

def successMarker : Str := "Update was successful".toList

def errLoadMarker : Str := "Error loading firmware file to RAM.".toList

/-- Flashing phase of update_bootloader (update_bootloader.py lines
103-127): send the update command, wait for the yes/no question, answer
y, wait for the next u-boot prompt.  A None wait result reaches the
substring test on line 110 and crashes with a TypeError; a reply without
the success marker closes the port and raises; on success the script
resets back to u-boot (ignoring the boolean result), closes and returns. -/
def update_bootloader_flash (com : Com) (image : Str) : PRes Unit :=
  let c1 := send_cmd com (updateUbootCmd ++ image)
  let r1 := Com.read_until c1 confirmPrompt 5
  let c2 := send_cmd r1.2 yStr
  let r2 := Com.readline_until c2 uPrompt 5
  match r2.1 with
  | none => .err .typeError r2.2
  | some text =>
    if pyInStr successMarker text then
      let b := boot_to_uboot r2.2 true
      .ok () (Com.close b.2)
    else failRT errLoadMarker r2.2

/-- update_bootloader.py update_bootloader (lines 43-127).  The image
name must end in .imx; then the stage is probed: with no prompt the
operator boots manually and the script waits up to 60 seconds for the
autoboot banner (raising after close on timeout); at the u-boot prompt it
proceeds directly; otherwise boot_to_uboot runs with its boolean result
ignored (line 101).  The serial port open is modelled as already done;
the validation error therefore leaves the port state untouched, matching
the source where validation precedes the open. -/
def update_bootloader (com : Com) (image : Str) : PRes Unit :=
  if lastN 4 image ≠ imxSuffix then .err (.valueError msgImx) com
  else
    let p := check_prompt com
    if p.1 = ([] : Str) then
      let r := Com.read_until p.2 autobootBanner 60
      match r.1 with
      | some _ =>
        let c := send_cmd r.2 []
        let q := check_prompt c
        update_bootloader_flash q.2 image
      | none => failRT msgTimedOut r.2
    else if p.1 = ubootName then update_bootloader_flash p.2 image
    else update_bootloader_flash (boot_to_uboot p.2 true).2 image

def cmdSetenvMmcdev : Str := "setenv mmcdev 0".toList

def cmdEnvDefault : Str := "env default -a -f".toList

def cmdPartition : Str := "run partition_mmc_linux".toList

def cmdSaveenv : Str := "saveenv".toList

def gptMarker : Str := "Writing GPT: success!".toList

def cmdUpdateLinux : Str := "update linux mmc 1 fat ".toList

def cmdUpdateRootfs : Str := "update rootfs mmc 1 fat ".toList

def cmdUpdateRecovery : Str := "update recovery mmc 1 fat ".toList

def firmwareMarker : Str := "Firmware updated".toList

def cmdSetenvBootcmd : Str := "setenv bootcmd dboot linux mmc".toList

def doneMarker : Str := "done".toList

def msgPartFail : Str := "Flash eMMC could not be partitioned.".toList

def msgBootImgFail : Str := "Linux boot firmware could not be installed.".toList

def msgRootfsFail : Str := "Root file system firmware could not be installed.".toList

def msgRecFail : Str := "Recovery image firmware could not be installed.".toList

def msgEnvFail : Str := "Environments could not be updated.".toList

def msgBootKernFail : Str := "Failed to boot kernel.".toList

/-- File-name validation of update_kernel (update_kernel.py lines 77-82):
each image name must end in its fixed suffix, checked by comparing the
last 10, 12 and 14 characters respectively. -/
def validate_kernel_images (boot_image rootfs_image recovery_image : Str) : Option PyError :=
  if lastN 10 boot_image ≠ bootSuffix then some (.valueError msgBootSuffix)
  else if lastN 12 rootfs_image ≠ rootfsSuffix then some (.valueError msgRootfsSuffix)
  else if lastN 14 recovery_image ≠ recoverySuffix then some (.valueError msgRecoverySuffix)
  else none

/-- Environment phase of update_kernel (update_kernel.py lines 180-215):
five commands each followed by a wait for the u-boot prompt, the final
wait checked for the done marker (None crashes the substring test with a
TypeError), then boot to the login prompt and close. -/
def update_kernel_env (com : Com) : PRes Unit :=
  let c1 := send_cmd com cmdSetenvBootcmd
  let r1 := Com.readline_until c1 uPrompt 5
  let c2 := send_cmd r1.2 cmdSaveenv
  let r2 := Com.readline_until c2 uPrompt 5
  let c3 := send_cmd r2.2 cmdSetenvMmcdev
  let r3 := Com.readline_until c3 uPrompt 5
  let c4 := send_cmd r3.2 cmdEnvDefault
  let r4 := Com.readline_until c4 uPrompt 5
  let c5 := send_cmd r4.2 cmdSaveenv
  let r5 := Com.readline_until c5 uPrompt 5
  match r5.1 with
  | none => .err .typeError r5.2
  | some text =>
    if pyInStr doneMarker text then
      let b := boot_to_login r5.2 false
      if b.1 then .ok () (Com.close b.2)
      else failRT msgBootKernFail b.2
    else failRT msgEnvFail r5.2

/-- Image phase of update_kernel (update_kernel.py lines 137-177): flash
the boot, rootfs and recovery images with 30, 120 and 30 second budgets
and their respective success markers; each None wait result crashes the
substring test with a TypeError, each unmarked reply closes and raises. -/
def update_kernel_images (com : Com) (boot_image rootfs_image recovery_image : Str) : PRes Unit :=
  let c1 := send_cmd com (cmdUpdateLinux ++ boot_image)
  let r1 := Com.readline_until c1 uPrompt 30
  match r1.1 with
  | none => .err .typeError r1.2
  | some t1 =>
    if pyInStr successMarker t1 then
      let c2 := send_cmd r1.2 (cmdUpdateRootfs ++ rootfs_image)
      let r2 := Com.readline_until c2 uPrompt 120
      match r2.1 with
      | none => .err .typeError r2.2
      | some t2 =>
        if pyInStr firmwareMarker t2 then
          let c3 := send_cmd r2.2 (cmdUpdateRecovery ++ recovery_image)
          let r3 := Com.readline_until c3 uPrompt 30
          match r3.1 with
          | none => .err .typeError r3.2
          | some t3 =>
            if pyInStr successMarker t3 then update_kernel_env r3.2
            else failRT msgRecFail r3.2
        else failRT msgRootfsFail r2.2
    else failRT msgBootImgFail r1.2

/-- Partition phase of update_kernel (update_kernel.py lines 112-134):
three commands with prompt waits, the last reply checked for the GPT
success marker (None crashes the substring test with a TypeError), then
saveenv, then reset back to u-boot with the boolean result ignored
(line 134). -/
def update_kernel_partition (com : Com) (boot_image rootfs_image recovery_image : Str) : PRes Unit :=
  let c1 := send_cmd com cmdSetenvMmcdev
  let r1 := Com.readline_until c1 uPrompt 5
  let c2 := send_cmd r1.2 cmdEnvDefault
  let r2 := Com.readline_until c2 uPrompt 5
  let c3 := send_cmd r2.2 cmdPartition
  let r3 := Com.readline_until c3 uPrompt 5
  match r3.1 with
  | none => .err .typeError r3.2
  | some text =>
    if pyInStr gptMarker text then
      let c4 := send_cmd r3.2 cmdSaveenv
      let r4 := Com.readline_until c4 uPrompt 5
      let b := boot_to_uboot r4.2 true
      update_kernel_images b.2 boot_image rootfs_image recovery_image
    else failRT msgPartFail r3.2

/-- update_kernel.py update_kernel (lines 49-215).  Validation of the
three image suffixes precedes any transport access; then the stage is
probed: with no prompt the operator powers the device and the script
waits up to 60 seconds for the autoboot banner (raising after close on
timeout); at the u-boot prompt it proceeds directly; otherwise
boot_to_uboot runs with its boolean result ignored (line 110). -/
def update_kernel (com : Com) (boot_image rootfs_image recovery_image : Str) : PRes Unit :=
  match validate_kernel_images boot_image rootfs_image recovery_image with
  | some e => .err e com
  | none =>
    let p := check_prompt com
    if p.1 = ([] : Str) then
      let r := Com.read_until p.2 autobootBanner 60
      match r.1 with
      | some _ =>
        update_kernel_partition (send_cmd r.2 []) boot_image rootfs_image recovery_image
      | none => failRT msgTimedOut r.2
    else if p.1 = ubootName then
      update_kernel_partition p.2 boot_image rootfs_image recovery_image
    else
      update_kernel_partition (boot_to_uboot p.2 true).2 boot_image rootfs_image recovery_image

def cmdMkdir : Str := "mkdir /mnt/sdc".toList

def cmdMount : Str := "mount -t vfat /dev/mmcblk1p1 /mnt/sdc".toList

def hashMarker : Str := "#".toList

def failedMarker : Str := "failed".toList

def cmdCp : Str := "cp /mnt/sdc/Setup.sh ./".toList

def cmdChmod : Str := "chmod 777 Setup.sh".toList

def cmdSetup : Str := "./Setup.sh".toList

def settingSerialMarker : Str := "Setting Serial Number".toList

def noSuchFileMarker : Str := "No such file or directory".toList

def enterSerialMarker : Str := "Enter New Serial Number".toList

def passphraseMarker : Str := "Computed PassPhrase:".toList

def newPsswdMarker : Str := "New password: ".toList

def reenterMarker : Str := "Re-enter new password: ".toList

def ubootBannerStr : Str := "U-Boot".toList

def msgMountFail : Str := "Failed to mount SD card.".toList

def msgDirNotFound : Str := "Failed to install application. Directory not found.".toList

/-- Serial-number validation of update_application
(update_application.py lines 75-81): exactly 16 characters, the last 8
satisfying Python isdigit, the first 8 satisfying Python isupper.  The
two isinstance checks of lines 71-74 cannot fail in this typed embedding. -/
def validate_serialno (serialno : Str) : Option PyError :=
  if serialno.length ≠ 16 then some (.valueError msgSerialLen)
  else if ¬ pyIsdigit (lastN 8 serialno) then some (.valueError msgSerialDigits)
  else if ¬ pyIsupper (serialno.take 8) then some (.valueError msgSerialUpper)
  else none

/-- Setup phase of update_application (update_application.py lines
129-172): copy the installer, mark it executable, run it, feed it the
serial number and twice the new password, capture the passphrase line,
then reboot to the login prompt and close.  A None result of the
Setting Serial Number wait crashes the substring test of line 140 with a
TypeError. -/
def update_application_setup (com : Com) (serialno root_psswd : Str) : PRes Str :=
  let c1 := send_cmd com cmdCp
  let r1 := Com.readline_until c1 hashMarker 5
  let c2 := send_cmd r1.2 cmdChmod
  let r2 := Com.readline_until c2 hashMarker 5
  let c3 := send_cmd r2.2 cmdSetup
  let r3 := Com.readline_until c3 settingSerialMarker 5
  match r3.1 with
  | none => .err .typeError r3.2
  | some text =>
    if pyInStr noSuchFileMarker text then failRT msgDirNotFound r3.2
    else
      let r4 := Com.readline_until r3.2 enterSerialMarker 5
      let c4 := send_cmd r4.2 serialno
      let r5 := Com.readline_until c4 passphraseMarker 5
      let pp := Com.readline r5.2
      let r6 := Com.read_until pp.2 newPsswdMarker 5
      let c5 := send_cmd r6.2 root_psswd
      let r7 := Com.read_until c5 reenterMarker 5
      let c6 := send_cmd r7.2 root_psswd
      let r8 := Com.read_until c6 hashMarker 5
      let b := boot_to_login r8.2 true
      if b.1 then .ok pp.1 (Com.close b.2)
      else failRT msgBootKernFail b.2

/-- Mount phase of update_application (update_application.py lines
115-127): make the mount point, mount the card, wait for the command echo
and then for the shell prompt; a reply containing failed closes and
raises, a None reply crashes the substring test of line 122 with a
TypeError. -/
def update_application_mount (com : Com) (serialno root_psswd : Str) : PRes Str :=
  let c1 := send_cmd com cmdMkdir
  let r1 := Com.readline_until c1 hashMarker 5
  let c2 := send_cmd r1.2 cmdMount
  let r2 := Com.readline_until c2 cmdMount 5
  let r3 := Com.readline_until r2.2 hashMarker 5
  match r3.1 with
  | none => .err .typeError r3.2
  | some text =>
    if pyInStr failedMarker text then failRT msgMountFail r3.2
    else update_application_setup r3.2 serialno root_psswd

/-- update_application.py update_application (lines 44-172).  Validation
precedes any transport access; then the stage is probed: with no prompt
the operator powers the device and the script waits up to 60 seconds for
the U-Boot banner (raising after close on timeout) and then boots to the
root shell; at the root shell it proceeds directly; otherwise
boot_to_root runs (its boolean result is ignored by the source). -/
def update_application (com : Com) (serialno root_psswd : Str) : PRes Str :=
  match validate_serialno serialno with
  | some e => .err e com
  | none =>
    let p := check_prompt com
    if p.1 = ([] : Str) then
      let r := Com.readline_until p.2 ubootBannerStr 60
      match r.1 with
      | none => failRT msgTimedOut r.2
      | some _ =>
        let r2 := Com.read_until r.2 loginBanner 40
        let b := boot_to_root r2.2 psswdDefault false
        update_application_mount b.2 serialno root_psswd
    else if p.1 = rootName then update_application_mount p.2 serialno root_psswd
    else
      let b := boot_to_root p.2 psswdDefault false
      update_application_mount b.2 serialno root_psswd

/-- Head session of the port, the one the next read call will consume. -/
def headSession (com : Com) : List Chunk := com.sessions.headD []

/-- Spec-side serial-number predicate, modelled from the claim wording:
16 characters, first 8 uppercase alphanumeric, last 8 numeric. -/
def specSerialOk (s : Str) : Bool :=
  decide (s.length = 16) && (s.take 8).all (fun c => c.isUpper || c.isDigit)
    && (lastN 8 s).all Char.isDigit

def uSess : List Chunk := [⟨1, "=>".toList⟩]

def loginSess : List Chunk := [⟨1, "ccimx6sbc login:".toList⟩]

def rootSess : List Chunk := [⟨1, "root@ccimx6sbc: #".toList⟩]

def gptSess : List Chunk := [⟨1, "Writing GPT: success!\n=>".toList⟩]

def badReplySess : List Chunk := [⟨1, "Error loading firmware file to RAM.\n=>".toList⟩]

def mountFailSess : List Chunk := [⟨1, "mount: failed\n#".toList⟩]

def serialGood : Str := "ABCDEFGH00000001".toList

/-- Device model that answers the first stage probe with the u-boot
prompt and then stays silent. -/
def comAtUboot : Com := ⟨[uSess], [], false⟩

/-- Device model that answers the first two stage probes with silence and
the login prompt, then stays silent. -/
def comAtLogin : Com := ⟨[[], loginSess], [], false⟩

/-- Device model at the u-boot prompt whose flash reply lacks the success
marker but shows the next prompt. -/
def comBadFlashReply : Com := ⟨[uSess, [], badReplySess], [], false⟩

/-- Device model at the root shell that then goes silent. -/
def comAtRootSilent : Com := ⟨[[], [], rootSess], [], false⟩

/-- Device model at the root shell whose mount reply contains failed. -/
def comMountFailed : Com := ⟨[[], [], rootSess, [], [], mountFailSess], [], false⟩

/-- Device model at the u-boot prompt that partitions successfully, comes
back to the u-boot prompt after the reset, and then goes silent during
the first image flash. -/
def comKernelStall : Com := ⟨[uSess, [], [], gptSess, [], uSess], [], false⟩

/-- Device model that presents the u-boot prompt to every read. -/
def comAlwaysUboot : Com := ⟨[uSess, uSess, uSess, uSess], [], false⟩

theorem nextSession_eq (com : Com) :
    nextSession com = (headSession com, ⟨com.sessions.tail, com.writes, com.closed⟩) := by
  cases com with
  | mk ss w c => cases ss <;> rfl

theorem comReadlineUntil_eq (com : Com) (t : Str) (o : Nat) :
    Com.readline_until com t o =
      (readline_until (headSession com) t o, ⟨com.sessions.tail, com.writes, com.closed⟩) := by
  cases com with
  | mk ss w c => cases ss <;> rfl

theorem comReadUntil_eq (com : Com) (t : Str) (o : Nat) :
    Com.read_until com t o =
      (read_until (headSession com) t o, ⟨com.sessions.tail, com.writes, com.closed⟩) := by
  cases com with
  | mk ss w c => cases ss <;> rfl

theorem comReadline_eq (com : Com) :
    Com.readline com = (accText (headSession com), ⟨com.sessions.tail, com.writes, com.closed⟩) := by
  cases com with
  | mk ss w c => cases ss <;> rfl

theorem read_until_nil (t : Str) (o : Nat) : read_until [] t o = none := rfl

theorem readline_until_nil (t : Str) (o : Nat) : readline_until [] t o = none := rfl

theorem check_prompt_unfold (com : Com) :
    check_prompt com =
      match readline_until (headSession com) uPrompt 1 with
      | some _ => (ubootName, ⟨com.sessions.tail, com.writes ++ [crlf, crlf], com.closed⟩)
      | none =>
        match readline_until (com.sessions.tail.headD []) loginPromptStr 1 with
        | some _ =>
          (loginName, ⟨com.sessions.tail.tail, com.writes ++ [crlf, crlf, crlf, crlf], com.closed⟩)
        | none =>
          match readline_until (com.sessions.tail.tail.headD []) rootPromptStr 1 with
          | some _ =>
            (rootName, ⟨com.sessions.tail.tail.tail,
              com.writes ++ [crlf, crlf, crlf, crlf, crlf, crlf], com.closed⟩)
          | none =>
            (([] : Str), ⟨com.sessions.tail.tail.tail,
              com.writes ++ [crlf, crlf, crlf, crlf, crlf, crlf], com.closed⟩) := by
  obtain ⟨ss, w, cl⟩ := com
  cases ss with
  | nil =>
    simp [check_prompt, comReadlineUntil_eq, headSession, send_cmd, readline_until_nil]
  | cons s1 ss1 =>
    cases h1 : readline_until s1 uPrompt 1 with
    | some t1 =>
      simp [check_prompt, comReadlineUntil_eq, headSession, send_cmd, h1]
    | none =>
      cases ss1 with
      | nil =>
        simp [check_prompt, comReadlineUntil_eq, headSession, send_cmd, h1,
          readline_until_nil]
      | cons s2 ss2 =>
        cases h2 : readline_until s2 loginPromptStr 1 with
        | some t2 =>
          simp [check_prompt, comReadlineUntil_eq, headSession, send_cmd, h1, h2]
        | none =>
          cases ss2 with
          | nil =>
            simp [check_prompt, comReadlineUntil_eq, headSession, send_cmd, h1, h2,
              readline_until_nil]
          | cons s3 ss3 =>
            cases h3 : readline_until s3 rootPromptStr 1 with
            | some t3 =>
              simp [check_prompt, comReadlineUntil_eq, headSession, send_cmd, h1, h2, h3]
            | none =>
              simp [check_prompt, comReadlineUntil_eq, headSession, send_cmd, h1, h2, h3]

theorem lastN_eq_iff (s t : Str) : lastN t.length s = t ↔ t <:+ s := by
  rw [lastN, List.suffix_iff_eq_drop]
  exact eq_comm

/-- C9: update_kernel accepts a triple of image file names exactly when
each ends with its documented suffix (.boot.vfat, .rootfs.ext4,
.recovery.vfat); in particular image.boot.vfat passes the boot check and
image.vfat.boot fails it. -/
theorem validate_kernel_images_spec :
    (∀ b r v : Str, validate_kernel_images b r v = none ↔
      (bootSuffix <:+ b ∧ rootfsSuffix <:+ r ∧ recoverySuffix <:+ v))
  ∧ validate_kernel_images "image.boot.vfat".toList "image.rootfs.ext4".toList
      "image.recovery.vfat".toList = none
  ∧ validate_kernel_images "image.vfat.boot".toList "image.rootfs.ext4".toList
      "image.recovery.vfat".toList = some (.valueError msgBootSuffix) := by
  refine ⟨?_, by decide, by decide⟩
  intro b r v
  have hb : (lastN 10 b = bootSuffix) ↔ bootSuffix <:+ b := by
    have h10 : (10 : Nat) = bootSuffix.length := rfl
    rw [h10, lastN_eq_iff]
  have hr : (lastN 12 r = rootfsSuffix) ↔ rootfsSuffix <:+ r := by
    have h12 : (12 : Nat) = rootfsSuffix.length := rfl
    rw [h12, lastN_eq_iff]
  have hv : (lastN 14 v = recoverySuffix) ↔ recoverySuffix <:+ v := by
    have h14 : (14 : Nat) = recoverySuffix.length := rfl
    rw [h14, lastN_eq_iff]
  simp only [validate_kernel_images]
  split_ifs with h1 h2 h3 <;> simp_all

/-- C8 counterexample: the code accepts AA!!!!!!12345678 although its
first 8 characters are not uppercase alphanumeric, and rejects
1234567812345678 although it satisfies the claimed 8/8 shape; so the
acceptance set is not the one the claim describes. -/
theorem validate_serialno_counterexample :
    validate_serialno "AA!!!!!!12345678".toList = none
  ∧ specSerialOk "AA!!!!!!12345678".toList = false
  ∧ validate_serialno "1234567812345678".toList = some (.valueError msgSerialUpper)
  ∧ specSerialOk "1234567812345678".toList = true := by decide

/-- C8 (amended): the validation accepts exactly the 16-character strings
whose last 8 characters are ASCII digits and whose first 8 characters
contain at least one letter and no lowercase letter (the Python isupper
rule); the four vectors named by the claim behave as it states. -/
theorem validate_serialno_spec :
    (∀ s : Str, validate_serialno s = none ↔
      (s.length = 16 ∧ (∀ c ∈ lastN 8 s, c.isDigit = true)
        ∧ (∃ c ∈ s.take 8, c.isAlpha = true) ∧ ∀ c ∈ s.take 8, c.isLower = false))
  ∧ validate_serialno "ABCDEFGH00000001".toList = none
  ∧ validate_serialno "abcdefgh00000001".toList = some (.valueError msgSerialUpper)
  ∧ validate_serialno "ABCDEFGH0000001".toList = some (.valueError msgSerialLen)
  ∧ validate_serialno "ABCDEFGH0000000A".toList = some (.valueError msgSerialDigits) := by
  refine ⟨?_, by decide, by decide, by decide, by decide⟩
  intro s
  have hne : s.length = 16 → lastN 8 s ≠ [] := by
    intro h16
    have : (lastN 8 s).length = 8 := by
      simp [lastN, List.length_drop, h16]
    intro hnil
    rw [hnil] at this
    simp at this
  simp only [validate_serialno, pyIsdigit, pyIsupper]
  split_ifs with h1 h2 h3 <;>
    simp_all [List.all_eq_true, List.any_eq_true, Bool.not_eq_true]
  try assumption

/-- C10: check_prompt only ever returns uboot, login, root or the empty
string (the NoPrompt value the update procedures compare against), and a
NoPrompt classification is reached only after the three probe blocks have
each written their two empty command lines, six writes in all. -/
theorem check_prompt_range (com : Com) :
    ((check_prompt com).1 = ubootName ∨ (check_prompt com).1 = loginName
      ∨ (check_prompt com).1 = rootName ∨ (check_prompt com).1 = ([] : Str))
  ∧ ((check_prompt com).1 = ([] : Str) →
      (check_prompt com).2.writes = com.writes ++ [crlf, crlf, crlf, crlf, crlf, crlf]) := by
  rw [check_prompt_unfold]
  cases h1 : readline_until (headSession com) uPrompt 1 with
  | some t1 => simp [ubootName]
  | none =>
    cases h2 : readline_until (com.sessions.tail.headD []) loginPromptStr 1 with
    | some t2 => simp [loginName]
    | none =>
      cases h3 : readline_until (com.sessions.tail.tail.headD []) rootPromptStr 1 with
      | some t3 => simp [rootName]
      | none => simp

/-- C10 witness: on a silent device the classification is NoPrompt and
exactly the six empty probe lines have been written. -/
theorem check_prompt_range_witness :
    (check_prompt ⟨[], [], false⟩).2.writes = [crlf, crlf, crlf, crlf, crlf, crlf] :=
  ((check_prompt_range ⟨[], [], false⟩).2 (by decide)).trans (by decide)

/-- C5: the stage detector probes the boot-loader marker first with a one
second budget, so any transport whose next two sessions would satisfy the
boot-loader marker and the login marker is classified uboot; only the
first session is consumed and only the first two probe lines are written,
showing the probe sequence stops at the first match. -/
theorem check_prompt_priority (com : Com) (t u : Str)
    (h1 : readline_until (headSession com) uPrompt 1 = some t)
    (_h2 : readline_until (com.sessions.tail.headD []) loginPromptStr 1 = some u) :
    (check_prompt com).1 = ubootName
  ∧ (check_prompt com).2.sessions = com.sessions.tail
  ∧ (check_prompt com).2.writes = com.writes ++ [crlf, crlf] := by
  rw [check_prompt_unfold, h1]
  exact ⟨rfl, rfl, rfl⟩

/-- C5 witness: a device answering the first probe with the u-boot prompt
and the second with the login banner is classified uboot. -/
theorem check_prompt_priority_witness :
    (check_prompt ⟨[uSess, loginSess], [], false⟩).1 = ubootName
  ∧ (check_prompt ⟨[uSess, loginSess], [], false⟩).2.sessions = [loginSess]
  ∧ (check_prompt ⟨[uSess, loginSess], [], false⟩).2.writes = [crlf, crlf] := by
  have h := check_prompt_priority ⟨[uSess, loginSess], [], false⟩
    "=>".toList "ccimx6sbc login:".toList (by decide) (by decide)
  simpa using h

/-- C4 counterexample: with the device already at the boot-loader prompt,
two consecutive boot_to_uboot calls with reset disabled both succeed, but
the second call does write to the transport (the two empty probe lines of
the stage detector), so the claimed write-free second call is false. -/
theorem boot_to_uboot_fastpath_counterexample :
    (boot_to_uboot comAlwaysUboot false).1 = true
  ∧ (boot_to_uboot (boot_to_uboot comAlwaysUboot false).2 false).1 = true
  ∧ (boot_to_uboot (boot_to_uboot comAlwaysUboot false).2 false).2.writes ≠
      (boot_to_uboot comAlwaysUboot false).2.writes := by decide

/-- C4 (amended): with the device already at the boot-loader prompt, two
consecutive boot_to_uboot calls with reset disabled both return success,
and each call writes exactly the two empty probe lines of the stage
detector and nothing else: no reset, reboot or login command is sent. -/
theorem boot_to_uboot_fastpath (com : Com) (t u : Str)
    (h1 : readline_until (headSession com) uPrompt 1 = some t)
    (h2 : readline_until (headSession (boot_to_uboot com false).2) uPrompt 1 = some u) :
    (boot_to_uboot com false).1 = true
  ∧ (boot_to_uboot com false).2.writes = com.writes ++ [crlf, crlf]
  ∧ (boot_to_uboot (boot_to_uboot com false).2 false).1 = true
  ∧ (boot_to_uboot (boot_to_uboot com false).2 false).2.writes =
      (boot_to_uboot com false).2.writes ++ [crlf, crlf] := by
  have hstep : ∀ c : Com, ∀ v : Str, readline_until (headSession c) uPrompt 1 = some v →
      boot_to_uboot c false = (true, ⟨c.sessions.tail, c.writes ++ [crlf, crlf], c.closed⟩) := by
    intro c v hv
    simp only [boot_to_uboot, check_prompt_unfold, hv]
    simp
  have h1e := hstep com t h1
  have h2e := hstep (boot_to_uboot com false).2 u h2
  rw [h1e] at h2e ⊢
  simp [h2e]

/-- C4 witness: a device that keeps presenting the u-boot prompt. -/
theorem boot_to_uboot_fastpath_witness :
    (boot_to_uboot comAlwaysUboot false).1 = true
  ∧ (boot_to_uboot comAlwaysUboot false).2.writes = comAlwaysUboot.writes ++ [crlf, crlf]
  ∧ (boot_to_uboot (boot_to_uboot comAlwaysUboot false).2 false).1 = true
  ∧ (boot_to_uboot (boot_to_uboot comAlwaysUboot false).2 false).2.writes =
      (boot_to_uboot comAlwaysUboot false).2.writes ++ [crlf, crlf] :=
  boot_to_uboot_fastpath comAlwaysUboot "=>".toList "=>".toList (by decide) (by decide)

/-- C2: when the success-marker wait times out, the procedures crash with
an uncaught TypeError (the None read result reaches the substring test)
instead of taking the controlled failure path: shown for the bootloader
flash response wait and the kernel boot-image flash wait, with the port
left open in both crashes; for contrast, an error-marked (non-timeout)
reply takes the controlled path, a RuntimeError raised after closing. -/
theorem marker_timeout_crash :
    (update_bootloader comAtUboot "u-boot.imx".toList).errOf = some .typeError
  ∧ (update_bootloader comAtUboot "u-boot.imx".toList).comOf.closed = false
  ∧ (update_kernel comKernelStall "a.boot.vfat".toList "a.rootfs.ext4".toList
      "a.recovery.vfat".toList).errOf = some .typeError
  ∧ (update_kernel comKernelStall "a.boot.vfat".toList "a.rootfs.ext4".toList
      "a.recovery.vfat".toList).comOf.closed = false
  ∧ (update_bootloader comBadFlashReply "u-boot.imx".toList).errOf =
      some (.runtimeError errLoadMarker)
  ∧ (update_bootloader comBadFlashReply "u-boot.imx".toList).comOf.closed = true := by
  decide

/-- C6: when the scripted reset sequence fails to reach the boot-loader
prompt (boot_to_uboot returns false on a device that presented a login
prompt and then went silent), update_bootloader still sends its flashing
command and update_kernel still sends its partitioning command: the
boolean transition result is ignored on lines 101 and 110 of the two
scripts. -/
theorem transition_failure_ignored :
    (check_prompt comAtLogin).1 = loginName
  ∧ (boot_to_uboot (check_prompt comAtLogin).2 true).1 = false
  ∧ (update_bootloader comAtLogin "u-boot.imx".toList).comOf.writes.any
      (fun w => pyInStr updateUbootCmd w) = true
  ∧ (update_kernel comAtLogin "a.boot.vfat".toList "a.rootfs.ext4".toList
      "a.recovery.vfat".toList).comOf.writes.any (fun w => pyInStr cmdPartition w) = true := by
  decide

/-- C3 counterexample: at the root shell with a silent mount step, the
mount-wait timeout makes update_application crash with a TypeError while
the port is still open, so this terminal failure after the open does not
close the transport. -/
theorem close_missed_counterexample :
    (update_application comAtRootSilent serialGood "pw".toList).errOf = some .typeError
  ∧ (update_application comAtRootSilent serialGood "pw".toList).comOf.closed = false := by
  decide

theorem closes_kernel_env (com : Com) :
    (update_kernel_env com).isRuntimeErr = true → (update_kernel_env com).comOf.closed = true := by
  simp only [update_kernel_env]
  repeat' split
  all_goals simp [failRT, PRes.isRuntimeErr, PRes.comOf, Com.close]

theorem closes_kernel_images (com : Com) (b r v : Str) :
    (update_kernel_images com b r v).isRuntimeErr = true →
      (update_kernel_images com b r v).comOf.closed = true := by
  simp only [update_kernel_images]
  repeat' split
  all_goals
    first
    | exact closes_kernel_env _
    | simp [failRT, PRes.isRuntimeErr, PRes.comOf, Com.close]

theorem closes_kernel_partition (com : Com) (b r v : Str) :
    (update_kernel_partition com b r v).isRuntimeErr = true →
      (update_kernel_partition com b r v).comOf.closed = true := by
  simp only [update_kernel_partition]
  repeat' split
  all_goals
    first
    | exact closes_kernel_images _ _ _ _
    | simp [failRT, PRes.isRuntimeErr, PRes.comOf, Com.close]

theorem validate_kernel_images_no_rt (b r v m : Str) :
    validate_kernel_images b r v ≠ some (.runtimeError m) := by
  simp only [validate_kernel_images]
  split_ifs <;> simp

theorem closes_kernel (com : Com) (b r v : Str) :
    (update_kernel com b r v).isRuntimeErr = true →
      (update_kernel com b r v).comOf.closed = true := by
  simp only [update_kernel]
  repeat' split
  all_goals
    first
    | exact closes_kernel_partition _ _ _ _
    | (simp [failRT, PRes.isRuntimeErr, PRes.comOf, Com.close]; done)
    | (rename_i e heq
       cases e <;> simp [PRes.isRuntimeErr]
       exact absurd heq (validate_kernel_images_no_rt _ _ _ _))

theorem closes_bootloader_flash (com : Com) (image : Str) :
    (update_bootloader_flash com image).isRuntimeErr = true →
      (update_bootloader_flash com image).comOf.closed = true := by
  simp only [update_bootloader_flash]
  repeat' split
  all_goals simp [failRT, PRes.isRuntimeErr, PRes.comOf, Com.close]

theorem closes_bootloader (com : Com) (image : Str) :
    (update_bootloader com image).isRuntimeErr = true →
      (update_bootloader com image).comOf.closed = true := by
  simp only [update_bootloader]
  repeat' split
  all_goals
    first
    | exact closes_bootloader_flash _ _
    | simp [failRT, PRes.isRuntimeErr, PRes.comOf, Com.close]

theorem closes_application_setup (com : Com) (sn pw : Str) :
    (update_application_setup com sn pw).isRuntimeErr = true →
      (update_application_setup com sn pw).comOf.closed = true := by
  simp only [update_application_setup]
  repeat' split
  all_goals simp [failRT, PRes.isRuntimeErr, PRes.comOf, Com.close]

theorem closes_application_mount (com : Com) (sn pw : Str) :
    (update_application_mount com sn pw).isRuntimeErr = true →
      (update_application_mount com sn pw).comOf.closed = true := by
  simp only [update_application_mount]
  repeat' split
  all_goals
    first
    | exact closes_application_setup _ _ _
    | simp [failRT, PRes.isRuntimeErr, PRes.comOf, Com.close]

theorem validate_serialno_no_rt (s m : Str) :
    validate_serialno s ≠ some (.runtimeError m) := by
  simp only [validate_serialno]
  split_ifs <;> simp

theorem closes_application (com : Com) (sn pw : Str) :
    (update_application com sn pw).isRuntimeErr = true →
      (update_application com sn pw).comOf.closed = true := by
  simp only [update_application]
  repeat' split
  all_goals
    first
    | exact closes_application_mount _ _ _
    | (simp [failRT, PRes.isRuntimeErr, PRes.comOf, Com.close]; done)
    | (rename_i e heq
       cases e <;> simp [PRes.isRuntimeErr]
       exact absurd heq (validate_serialno_no_rt _ _))

/-- C3 (amended): every terminal failure that the procedures signal
through their own raise statements, a RuntimeError, leaves the transport
closed, for all three procedures and every device behavior; the
timeout-induced TypeError crashes, however, escape without closing (see
the counterexample). -/
theorem runtime_failures_close (com1 com2 com3 : Com) (image b r v sn pw : Str) :
    ((update_bootloader com1 image).isRuntimeErr = true →
      (update_bootloader com1 image).comOf.closed = true)
  ∧ ((update_kernel com2 b r v).isRuntimeErr = true →
      (update_kernel com2 b r v).comOf.closed = true)
  ∧ ((update_application com3 sn pw).isRuntimeErr = true →
      (update_application com3 sn pw).comOf.closed = true) :=
  ⟨closes_bootloader com1 image, closes_kernel com2 b r v, closes_application com3 sn pw⟩

/-- C3 witness: concrete devices on which each procedure raises a
RuntimeError, and the port is indeed closed in the final state. -/
theorem runtime_failures_close_witness :
    (update_bootloader ⟨[], [], false⟩ "u-boot.imx".toList).comOf.closed = true
  ∧ (update_kernel ⟨[], [], false⟩ "a.boot.vfat".toList "a.rootfs.ext4".toList
      "a.recovery.vfat".toList).comOf.closed = true
  ∧ (update_application comMountFailed serialGood "pw".toList).comOf.closed = true := by
  have h := runtime_failures_close ⟨[], [], false⟩ ⟨[], [], false⟩ comMountFailed
    "u-boot.imx".toList "a.boot.vfat".toList "a.rootfs.ext4".toList "a.recovery.vfat".toList
    serialGood "pw".toList
  exact ⟨h.1 (by decide), h.2.1 (by decide), h.2.2 (by decide)⟩

/-- C7: from the root shell, when the shell-prompt wait after the mount
command yields a reply containing the failed marker, update_application
raises a RuntimeError with the port closed, and the only lines written
are the six stage probes, the mkdir and the mount command: the copy,
chmod and installer-execution commands are never sent. -/
theorem mount_failure_aborts (com : Com) (s1 s2 s3 s4 s5 s6 : List Chunk)
    (rest : List (List Chunk)) (t3 t6 pw : Str)
    (hs : com.sessions = s1 :: s2 :: s3 :: s4 :: s5 :: s6 :: rest)
    (h1 : readline_until s1 uPrompt 1 = none)
    (h2 : readline_until s2 loginPromptStr 1 = none)
    (h3 : readline_until s3 rootPromptStr 1 = some t3)
    (h6 : readline_until s6 hashMarker 5 = some t6)
    (hf : pyInStr failedMarker t6 = true) :
    update_application com serialGood pw =
      .err (.runtimeError msgMountFail)
        ⟨rest, com.writes ++ [crlf, crlf, crlf, crlf, crlf, crlf,
          cmdMkdir ++ crlf, cmdMount ++ crlf], true⟩
  ∧ (cmdCp ++ crlf) ∉ (update_application com serialGood pw).comOf.writes.drop com.writes.length
  ∧ (cmdChmod ++ crlf) ∉
      (update_application com serialGood pw).comOf.writes.drop com.writes.length
  ∧ (cmdSetup ++ crlf) ∉
      (update_application com serialGood pw).comOf.writes.drop com.writes.length := by
  have hv : validate_serialno serialGood = none := by decide
  have hcp : check_prompt com =
      (rootName, ⟨s4 :: s5 :: s6 :: rest,
        com.writes ++ [crlf, crlf, crlf, crlf, crlf, crlf], com.closed⟩) := by
    rw [check_prompt_unfold]
    simp [headSession, hs, h1, h2, h3]
  have hE : update_application com serialGood pw =
      .err (.runtimeError msgMountFail)
        ⟨rest, com.writes ++ [crlf, crlf, crlf, crlf, crlf, crlf,
          cmdMkdir ++ crlf, cmdMount ++ crlf], true⟩ := by
    simp only [update_application, hv, hcp]
    rw [if_neg (by decide)]
    rw [if_pos trivial]
    simp only [update_application_mount, comReadlineUntil_eq, headSession, send_cmd]
    simp [h6, hf, failRT, Com.close]
  refine ⟨hE, ?_, ?_, ?_⟩ <;>
    simp [hE, PRes.comOf, List.drop_left] <;> decide

/-- C7 witness: a concrete device at the root shell whose mount reply is
mount: failed followed by the shell prompt. -/
theorem mount_failure_aborts_witness :
    update_application comMountFailed serialGood "pw".toList =
      .err (.runtimeError msgMountFail)
        ⟨[], [crlf, crlf, crlf, crlf, crlf, crlf, cmdMkdir ++ crlf, cmdMount ++ crlf], true⟩ := by
  have h := mount_failure_aborts comMountFailed [] [] rootSess [] [] mountFailSess []
    "root@ccimx6sbc: #".toList "mount: failed\n#".toList "pw".toList
    (by decide) (by decide) (by decide) (by decide) (by decide) (by decide)
  simpa using h.1


theorem pyInStr_iff (sub text : Str) : pyInStr sub text = true ↔ sub <:+: text := by
  simp [pyInStr]

theorem accText_nil : accText [] = [] := rfl

theorem accText_cons (c : Chunk) (l : List Chunk) : accText (c :: l) = c.s ++ accText l := rfl

theorem durSum_cons (c : Chunk) (l : List Chunk) : durSum (c :: l) = c.dt + durSum l := rfl

theorem readLoop_nil (string : Str) (timeout : Nat) (text : Str) (elapsed : Nat) :
    readLoop string timeout [] text elapsed = none := rfl

theorem readLoop_cons (string : Str) (timeout : Nat) (c : Chunk) (rest : List Chunk)
    (text : Str) (elapsed : Nat) :
    readLoop string timeout (c :: rest) text elapsed =
      if elapsed < timeout then
        if pyInStr string (text ++ c.s) then some (text ++ c.s)
        else readLoop string timeout rest (text ++ c.s) (elapsed + c.dt)
      else none := rfl

theorem budgetChunks_cons (timeout elapsed : Nat) (c : Chunk) (rest : List Chunk) :
    budgetChunks timeout elapsed (c :: rest) =
      if elapsed < timeout then c :: budgetChunks timeout (elapsed + c.dt) rest else [] := rfl

theorem readLoop_none_iff (string : Str) (timeout : Nat) :
    ∀ (chunks : List Chunk) (text : Str) (elapsed : Nat),
      ¬ string <:+: text →
      timeout ≤ elapsed + durSum chunks →
      (readLoop string timeout chunks text elapsed = none ↔
        ¬ string <:+: text ++ accText (budgetChunks timeout elapsed chunks)) := by
  intro chunks
  induction chunks with
  | nil =>
    intro text elapsed hni _
    simp [readLoop_nil, budgetChunks, accText_nil, hni]
  | cons c rest ih =>
    intro text elapsed hni hcov
    rw [readLoop_cons, budgetChunks_cons]
    by_cases hel : elapsed < timeout
    · rw [if_pos hel, if_pos hel, accText_cons, ← List.append_assoc]
      by_cases hin : string <:+: text ++ c.s
      · rw [if_pos ((pyInStr_iff _ _).mpr hin)]
        have hmono :
            string <:+: (text ++ c.s) ++ accText (budgetChunks timeout (elapsed + c.dt) rest) :=
          hin.trans (List.prefix_append _ _).isInfix
        simp only [List.append_assoc] at hmono
        simp [hmono]
      · rw [if_neg (by rw [pyInStr_iff]; exact hin)]
        have hcov2 : timeout ≤ (elapsed + c.dt) + durSum rest := by
          rw [durSum_cons] at hcov
          omega
        exact ih (text ++ c.s) (elapsed + c.dt) hin hcov2
    · rw [if_neg hel, if_neg hel, accText_nil, List.append_nil]
      simp [hni]

theorem readLoop_some (string : Str) (timeout : Nat) :
    ∀ (chunks : List Chunk) (text : Str) (elapsed : Nat) (res : Str),
      ¬ string <:+: text →
      readLoop string timeout chunks text elapsed = some res →
      ∃ k, 0 < k
        ∧ res = text ++ accText (chunks.take k)
        ∧ string <:+: res
        ∧ (∀ j, j < k → ¬ string <:+: text ++ accText (chunks.take j))
        ∧ ∀ tl, readLoop string timeout (chunks.take k ++ tl) text elapsed = some res := by
  intro chunks
  induction chunks with
  | nil =>
    intro text elapsed res _ h
    simp [readLoop_nil] at h
  | cons c rest ih =>
    intro text elapsed res hni h
    rw [readLoop_cons] at h
    by_cases hel : elapsed < timeout
    · rw [if_pos hel] at h
      by_cases hin : string <:+: text ++ c.s
      · rw [if_pos ((pyInStr_iff _ _).mpr hin)] at h
        injection h with hres
        refine ⟨1, one_pos, ?_, ?_, ?_, ?_⟩
        · rw [← hres]
          simp [List.take_succ_cons, accText_cons, accText_nil]
        · rw [← hres]
          exact hin
        · intro j hj
          rw [Nat.lt_one_iff] at hj
          subst hj
          simpa [accText_nil] using hni
        · intro tl
          rw [List.take_succ_cons, List.take_zero, List.cons_append, List.nil_append,
            readLoop_cons, if_pos hel, if_pos ((pyInStr_iff _ _).mpr hin), hres]
      · rw [if_neg (by rw [pyInStr_iff]; exact hin)] at h
        obtain ⟨k, hk0, hres, hinf, hmin, hext⟩ := ih (text ++ c.s) (elapsed + c.dt) res hin h
        refine ⟨k + 1, Nat.succ_pos _, ?_, hinf, ?_, ?_⟩
        · rw [List.take_succ_cons, accText_cons, ← List.append_assoc]
          exact hres
        · intro j hj
          cases j with
          | zero => simpa [accText_nil] using hni
          | succ j2 =>
            have hj2 := hmin j2 (Nat.lt_of_succ_lt_succ hj)
            rw [List.take_succ_cons, accText_cons, ← List.append_assoc]
            exact hj2
        · intro tl
          rw [List.take_succ_cons, List.cons_append, readLoop_cons, if_pos hel,
            if_neg (by rw [pyInStr_iff]; exact hin)]
          exact hext tl
    · rw [if_neg hel] at h
      simp at h

/-- C1 counterexample: with the empty target string and a zero budget the
loop body never runs, so read_until returns None even though the empty
target does occur (trivially) in the text accumulated within the budget;
the claimed equivalence therefore fails for the empty target. -/
theorem read_until_empty_target_counterexample :
    read_until [] [] 0 = none ∧ ([] : Str) <:+: accText (budgetChunks 0 0 []) :=
  ⟨rfl, by decide⟩

/-- C1 (amended): for every nonempty target, every budget, and every
chunk stream that keeps serving reads for the whole budget, read_until
returns None exactly when the target occurs nowhere in the text
accumulated within the budget; a successful result is the accumulation at
the first read whose text contains the target, no earlier accumulation
contains it, and the result is unchanged by whatever the transport would
have produced afterwards, so no input past the first match is read;
readline_until computes the same function of its line reads. -/
theorem read_until_spec (chunks : List Chunk) (string : Str) (timeout : Nat)
    (hne : string ≠ []) (hcov : timeout ≤ durSum chunks) :
    (read_until chunks string timeout = none ↔
      ¬ string <:+: accText (budgetChunks timeout 0 chunks))
  ∧ (∀ res, read_until chunks string timeout = some res →
      ∃ k, 0 < k ∧ res = accText (chunks.take k) ∧ string <:+: res
        ∧ (∀ j, j < k → ¬ string <:+: accText (chunks.take j))
        ∧ ∀ tl, read_until (chunks.take k ++ tl) string timeout = some res)
  ∧ readline_until chunks string timeout = read_until chunks string timeout := by
  have hni : ¬ string <:+: ([] : Str) := by
    rw [List.infix_nil]
    exact hne
  refine ⟨?_, ?_, rfl⟩
  · have h := readLoop_none_iff string timeout chunks [] 0 hni (by simpa using hcov)
    simpa [read_until] using h
  · intro res h
    obtain ⟨k, hk0, hres, hinf, hmin, hext⟩ :=
      readLoop_some string timeout chunks [] 0 res hni h
    refine ⟨k, hk0, by simpa using hres, hinf, ?_, ?_⟩
    · intro j hj
      have := hmin j hj
      simpa using this
    · intro tl
      have := hext tl
      simpa [read_until] using this

/-- C1 witness: a stream serving the two characters ab in one second,
searched for a with a one second budget. -/
theorem read_until_spec_witness :
    (read_until [⟨1, "ab".toList⟩] "a".toList 1 = none ↔
      ¬ "a".toList <:+: accText (budgetChunks 1 0 [⟨1, "ab".toList⟩]))
  ∧ (∀ res, read_until [⟨1, "ab".toList⟩] "a".toList 1 = some res →
      ∃ k, 0 < k ∧ res = accText (([⟨1, "ab".toList⟩] : List Chunk).take k)
        ∧ "a".toList <:+: res
        ∧ (∀ j, j < k → ¬ "a".toList <:+: accText (([⟨1, "ab".toList⟩] : List Chunk).take j))
        ∧ ∀ tl, read_until (([⟨1, "ab".toList⟩] : List Chunk).take k ++ tl) "a".toList 1 = some res)
  ∧ readline_until [⟨1, "ab".toList⟩] "a".toList 1 = read_until [⟨1, "ab".toList⟩] "a".toList 1 :=
  read_until_spec [⟨1, "ab".toList⟩] "a".toList 1 (by decide) (by decide)
